import Mathlib

/-
  Shallow embedding of the trade-tracker-web account-ledger application
  (src/models.py, src/database.py, src/main.py).

  Modelling conventions:
  - Python `int` is modelled by `Int` (Python integers are exact and unbounded).
  - ISO-8601 timestamp strings compared via `datetime.fromisoformat` are
    modelled by an `Int` number of minutes, so the 24-hour expiry window is
    1440 and 23h59m / 24h01m are 1439 / 1441.
  - The account dicts stored in `Database.accounts` are modelled by
    `AccountRecord` with an extra `remaining_amount : Option Int` field:
    the pydantic model has no such key (field is `none` at creation), but
    `get_all_accounts` writes the key into the stored dicts because
    `self.accounts.copy()` is a shallow copy whose elements alias the
    stored dicts.
  - The Python dict of sessions is modelled as an association list with
    key-unique update (`setKey`).
  - The two on-disk JSON documents are modelled by the `disk_accounts` /
    `disk_sessions` fields; `save_data` copies the in-memory collections
    into them.
  - `uuid.uuid4()` and `datetime.now()` are nondeterministic inputs, so the
    handlers take the generated token and the current time as parameters.
-/

/-- One stored account dict (models.AccountRecord plus the
`remaining_amount` key that `get_all_accounts` writes into stored dicts). -/
structure AccountRecord where
  account_code : String
  account_name : String
  total_amount : Int
  manager : String
  created_time : String
  paid_amounts : List Int
  locked : Bool
  remaining_amount : Option Int
deriving Repr, DecidableEq, Inhabited

/-- models.UserSession. `login_time` is minutes since an arbitrary epoch. -/
structure UserSession where
  username : String
  is_viewer : Bool
  login_time : Int
deriving Repr, DecidableEq, Inhabited

/-- models.ACCOUNT_MAPPING: the static code-to-name table. -/
def ACCOUNT_MAPPING : List (String × String) :=
  [ ("1243", "泰康资产XX年金")
  , ("1001", "平安保险养老金")
  , ("1002", "国寿投资专户")
  , ("1003", "太保资管组合")
  , ("1004", "新华保险投资户")
  , ("1005", "人保资产专项")
  , ("1006", "太平养老组合")
  , ("1007", "华泰资产产品")
  , ("1008", "安邦保险投资") ]

/-- Python dict lookup (`d[k]` / `k in d`), modelled on an association list. -/
def lookupKey {β : Type} (ss : List (String × β)) (k : String) : Option β :=
  match ss with
  | [] => none
  | (k2, v) :: rest => if k2 = k then some v else lookupKey rest k

/-- Python `del d[k]`. -/
def eraseKey {β : Type} (ss : List (String × β)) (k : String) : List (String × β) :=
  ss.filter (fun p => p.1 != k)

/-- Python `d[k] = v` (overwrites any previous binding of `k`). -/
def setKey {β : Type} (ss : List (String × β)) (k : String) (v : β) : List (String × β) :=
  eraseKey ss k ++ [(k, v)]

/-- Python `str.strip()` with no argument: removes leading and trailing
whitespace. Modelled over the string's character list. -/
def pyStrip (s : String) : String :=
  ⟨((s.data.dropWhile Char.isWhitespace).reverse.dropWhile Char.isWhitespace).reverse⟩

/-- The in-memory state of database.Database together with the two on-disk
documents (`data.json`, `sessions.json`). -/
structure Database where
  accounts : List AccountRecord
  sessions : List (String × UserSession)
  disk_accounts : List AccountRecord
  disk_sessions : List (String × UserSession)
deriving Repr, DecidableEq, Inhabited

/-- Database.save_data: serializes both in-memory collections wholesale to
their documents. -/
def Database.save_data (db : Database) : Database :=
  { db with disk_accounts := db.accounts, disk_sessions := db.sessions }

/-- The in-place update `account['remaining_amount'] = account['total_amount'] - total_paid`
performed by `get_all_accounts` on each stored dict. -/
def refreshRemaining (a : AccountRecord) : AccountRecord :=
  { a with remaining_amount := some (a.total_amount - a.paid_amounts.sum) }

/-- Database.get_all_accounts. `self.accounts.copy()` is a shallow copy, so
the per-dict writes mutate the stored dicts as well: the function returns the
refreshed list and leaves the store holding the same refreshed dicts. -/
def Database.get_all_accounts (db : Database) : List AccountRecord × Database :=
  let accounts := db.accounts.map refreshRemaining
  (accounts, { db with accounts := accounts })

/-- Database.add_account: appends the record dict and saves. -/
def Database.add_account (db : Database) (account : AccountRecord) : Database :=
  Database.save_data { db with accounts := db.accounts ++ [account] }

/-- Database.update_account: in-range index replaces the record and saves,
otherwise silently does nothing. -/
def Database.update_account (db : Database) (index : Int) (account_data : AccountRecord) :
    Database :=
  if 0 ≤ index ∧ index < (db.accounts.length : Int) then
    Database.save_data { db with accounts := db.accounts.set index.toNat account_data }
  else db

/-- Database.delete_account: in-range index pops the record and saves,
otherwise silently does nothing. -/
def Database.delete_account (db : Database) (index : Int) : Database :=
  if 0 ≤ index ∧ index < (db.accounts.length : Int) then
    Database.save_data { db with accounts := db.accounts.eraseIdx index.toNat }
  else db

/-- Database.add_paid_amount: in-range index appends to `paid_amounts` and
saves, otherwise silently does nothing. -/
def Database.add_paid_amount (db : Database) (index : Int) (amount : Int) : Database :=
  if 0 ≤ index ∧ index < (db.accounts.length : Int) then
    let a := db.accounts.getD index.toNat default
    Database.save_data
      { db with accounts :=
          db.accounts.set index.toNat { a with paid_amounts := a.paid_amounts ++ [amount] } }
  else db

/-- Database.toggle_lock: in-range index sets `locked` and saves, otherwise
silently does nothing. -/
def Database.toggle_lock (db : Database) (index : Int) (locked : Bool) : Database :=
  if 0 ≤ index ∧ index < (db.accounts.length : Int) then
    let a := db.accounts.getD index.toNat default
    Database.save_data
      { db with accounts := db.accounts.set index.toNat { a with locked := locked } }
  else db

/-- Responses a handler can produce: a 303 redirect to `/`, an HTTPException
with status and detail, or the re-rendered login page (empty username). -/
inductive HResp where
  | redirect
  | httpError (status : Nat) (detail : String)
  | loginPage
deriving Repr, DecidableEq, Inhabited

/-- main.get_session: resolves a cookie token. Python's
`if session_id and session_id in db.sessions` treats the empty string as
falsy; a present but expired session is deleted and the state saved. -/
def get_session (now : Int) (session_id : Option String) (db : Database) :
    Option UserSession × Database :=
  match session_id with
  | none => (none, db)
  | some sid =>
    if sid = "" then (none, db)
    else
      match lookupKey db.sessions sid with
      | none => (none, db)
      | some s =>
        if now - s.login_time < 1440 then (some s, db)
        else (none, Database.save_data { db with sessions := eraseKey db.sessions sid })

/-- main.login: `token` stands for the generated `uuid.uuid4()` string and
`now` for `datetime.now()`. Viewer mode stores the sentinel username; a blank
username re-renders the login page with an error and creates no session. -/
def login (now : Int) (token : String) (username : String) (viewer_mode : Bool)
    (db : Database) : HResp × Database :=
  if viewer_mode then
    let s : UserSession := { username := "浏览者", is_viewer := true, login_time := now }
    (HResp.redirect, Database.save_data { db with sessions := setKey db.sessions token s })
  else if pyStrip username = "" then
    (HResp.loginPage, db)
  else
    let s : UserSession := { username := pyStrip username, is_viewer := false, login_time := now }
    (HResp.redirect, Database.save_data { db with sessions := setKey db.sessions token s })

/-- main.logout: deletes the session when the cookie names one (empty cookie
string is falsy in Python) and saves. -/
def logout (session_id : Option String) (db : Database) : HResp × Database :=
  match session_id with
  | none => (HResp.redirect, db)
  | some sid =>
    if sid = "" then (HResp.redirect, db)
    else
      match lookupKey db.sessions sid with
      | none => (HResp.redirect, db)
      | some _ =>
        (HResp.redirect, Database.save_data { db with sessions := eraseKey db.sessions sid })

/-- main.add_account handler: `created_time` stands for
`datetime.now().isoformat()`. -/
def add_account (now : Int) (created_time : String) (account_code : String)
    (total_amount : Int) (session_id : Option String) (db : Database) : HResp × Database :=
  match get_session now session_id db with
  | (none, db1) => (HResp.httpError 403 "浏览模式无法添加账户", db1)
  | (some session, db1) =>
    if session.is_viewer then (HResp.httpError 403 "浏览模式无法添加账户", db1)
    else
      match lookupKey ACCOUNT_MAPPING account_code with
      | none => (HResp.httpError 400 "无效的账户编码", db1)
      | some name =>
        (HResp.redirect, db1.add_account
          { account_code := account_code
          , account_name := name
          , total_amount := total_amount
          , manager := session.username
          , created_time := created_time
          , paid_amounts := []
          , locked := false
          , remaining_amount := none })

/-- main.add_payment handler. -/
def add_payment (now : Int) (account_index : Int) (amount : Int)
    (session_id : Option String) (db : Database) : HResp × Database :=
  match get_session now session_id db with
  | (none, db1) => (HResp.httpError 403 "未登录", db1)
  | (some session, db1) =>
    let p := db1.get_all_accounts
    if account_index < 0 ∨ (p.1.length : Int) ≤ account_index then
      (HResp.httpError 404 "账户不存在", p.2)
    else
      let account := p.1.getD account_index.toNat default
      if account.locked = true ∧ account.manager ≠ session.username then
        (HResp.httpError 403 "账户已被锁定", p.2)
      else
        let remaining := account.total_amount - account.paid_amounts.sum
        if remaining < amount then
          (HResp.httpError 400 "支付金额超过剩余金额", p.2)
        else
          (HResp.redirect, p.2.add_paid_amount account_index amount)

/-- main.toggle_lock handler. -/
def toggle_lock (now : Int) (account_index : Int) (session_id : Option String)
    (db : Database) : HResp × Database :=
  match get_session now session_id db with
  | (none, db1) => (HResp.httpError 403 "未登录", db1)
  | (some session, db1) =>
    let p := db1.get_all_accounts
    if account_index < 0 ∨ (p.1.length : Int) ≤ account_index then
      (HResp.httpError 404 "账户不存在", p.2)
    else
      let account := p.1.getD account_index.toNat default
      if account.manager ≠ session.username then
        (HResp.httpError 403 "只能操作自己的账户", p.2)
      else
        (HResp.redirect, p.2.toggle_lock account_index (!account.locked))

/-- main.delete_account handler. -/
def delete_account (now : Int) (account_index : Int) (session_id : Option String)
    (db : Database) : HResp × Database :=
  match get_session now session_id db with
  | (none, db1) => (HResp.httpError 403 "未登录", db1)
  | (some session, db1) =>
    let p := db1.get_all_accounts
    if account_index < 0 ∨ (p.1.length : Int) ≤ account_index then
      (HResp.httpError 404 "账户不存在", p.2)
    else
      let account := p.1.getD account_index.toNat default
      if account.manager ≠ session.username ∧ session.is_viewer = false then
        (HResp.httpError 403 "只能删除自己的账户", p.2)
      else
        (HResp.redirect, p.2.delete_account account_index)

/-- The public operations, for reachability statements; each carries its
nondeterministic inputs (current time, generated token). -/
inductive Op where
  | opLogin (now : Int) (token : String) (username : String) (viewer_mode : Bool)
  | opLogout (session_id : Option String)
  | opCreate (now : Int) (created_time : String) (account_code : String)
      (total_amount : Int) (session_id : Option String)
  | opAddPayment (now : Int) (account_index : Int) (amount : Int) (session_id : Option String)
  | opToggleLock (now : Int) (account_index : Int) (session_id : Option String)
  | opDelete (now : Int) (account_index : Int) (session_id : Option String)
deriving Repr, DecidableEq

/-- One public operation applied to the state. -/
def step (db : Database) (op : Op) : Database :=
  match op with
  | .opLogin now tok u v => (login now tok u v db).2
  | .opLogout sid => (logout sid db).2
  | .opCreate now ct code amt sid => (add_account now ct code amt sid db).2
  | .opAddPayment now i amt sid => (add_payment now i amt sid db).2
  | .opToggleLock now i sid => (toggle_lock now i sid db).2
  | .opDelete now i sid => (delete_account now i sid db).2

/-- Startup state with no data files present: both collections empty. -/
def initDb : Database :=
  { accounts := [], sessions := [], disk_accounts := [], disk_sessions := [] }

/-- Run a sequence of public operations. -/
def runOps (db : Database) (ops : List Op) : Database :=
  ops.foldl step db

/-- Forgets the derived `remaining_amount` cache key, keeping the fields of
the persistent data model (models.AccountRecord). -/
def stripCache (a : AccountRecord) : AccountRecord :=
  { a with remaining_amount := none }

/-! Helper lemmas shared by the claim theorems. -/

theorem stripCache_refreshRemaining (a : AccountRecord) :
    stripCache (refreshRemaining a) = stripCache a := rfl

theorem map_stripCache_refreshRemaining (l : List AccountRecord) :
    (l.map refreshRemaining).map stripCache = l.map stripCache := by
  simp only [List.map_map]
  exact List.map_congr_left (fun a _ => stripCache_refreshRemaining a)

theorem getD_map_refresh (l : List AccountRecord) (i : Nat) (h : i < l.length) :
    (l.map refreshRemaining).getD i default = refreshRemaining (l.getD i default) := by
  simp [List.getD, List.getElem?_map, List.getElem?_eq_getElem h]

theorem getD_set_self (l : List AccountRecord) (i : Nat) (a : AccountRecord)
    (h : i < l.length) : (l.set i a).getD i default = a := by
  simp [List.getD, List.getElem?_set_self, h]

theorem eraseIdx_map_stripCache (l : List AccountRecord) (i : Nat) :
    (l.map stripCache).eraseIdx i = (l.eraseIdx i).map stripCache := by
  induction l generalizing i with
  | nil => simp
  | cons a t ih => cases i <;> simp [List.eraseIdx, ih]

theorem lookupKey_eraseKey_self {β : Type} (ss : List (String × β)) (k : String) :
    lookupKey (eraseKey ss k) k = none := by
  induction ss with
  | nil => rfl
  | cons p rest ih =>
    by_cases hp : p.1 = k
    · simpa [eraseKey, hp] using ih
    · simpa [eraseKey, lookupKey, hp] using ih

theorem get_session_fresh (now : Int) (sid : String) (s : UserSession) (db : Database)
    (hsid : sid ≠ "") (hs : lookupKey db.sessions sid = some s)
    (hfresh : now - s.login_time < 1440) :
    get_session now (some sid) db = (some s, db) := by
  simp [get_session, hsid, hs, hfresh]

/-! Concrete example states used by witnesses and counterexamples. -/

/-- A stored account dict as it exists before any listing: the
`remaining_amount` key is absent. -/
def exampleAcct : AccountRecord :=
  { account_code := "1001", account_name := "平安保险养老金", total_amount := 10
  , manager := "alice", created_time := "t0", paid_amounts := [], locked := false
  , remaining_amount := none }

def exampleSession : UserSession :=
  { username := "alice", is_viewer := false, login_time := 0 }

def exampleSessionB : UserSession :=
  { username := "bob", is_viewer := false, login_time := 0 }

/-- A viewer session, exactly as `login` with viewer_mode creates it. -/
def exampleViewer : UserSession :=
  { username := "浏览者", is_viewer := true, login_time := 0 }

def exampleDb : Database :=
  { accounts := [exampleAcct]
  , sessions := [("tk", exampleSession), ("tkb", exampleSessionB), ("tkv", exampleViewer)]
  , disk_accounts := [exampleAcct]
  , disk_sessions := [("tk", exampleSession), ("tkb", exampleSessionB), ("tkv", exampleViewer)] }

/-- C1: every account returned by `get_all_accounts` carries
`remaining_amount = total_amount - sum(paid_amounts)`, computed over exact
integers, in every state (hence after any sequence of admitted payments). -/
theorem get_all_accounts_remaining (db : Database) (a : AccountRecord)
    (h : a ∈ (Database.get_all_accounts db).1) :
    a.remaining_amount = some (a.total_amount - a.paid_amounts.sum) := by
  simp only [Database.get_all_accounts, List.mem_map] at h
  obtain ⟨b, _, rfl⟩ := h
  rfl

/-- Witness for C1 on a concrete store. -/
theorem get_all_accounts_remaining_witness :
    refreshRemaining exampleAcct ∈ (Database.get_all_accounts exampleDb).1 ∧
    (refreshRemaining exampleAcct).remaining_amount
      = some ((refreshRemaining exampleAcct).total_amount
          - (refreshRemaining exampleAcct).paid_amounts.sum) :=
  ⟨by decide, get_all_accounts_remaining exampleDb (refreshRemaining exampleAcct) (by decide)⟩

/-- C2 is false of the code: `get_all_accounts` performs a shallow copy, so
setting `remaining_amount` mutates the stored dicts, and a subsequent
`save_data` writes the key into the accounts document. On a store whose only
record lacks the key (`none`), one listing plants `some 10` in memory and the
next save persists it. -/
theorem get_all_accounts_persists_cache :
    exampleDb.accounts.map (fun a => a.remaining_amount) = [none] ∧
    (Database.get_all_accounts exampleDb).2.accounts.map (fun a => a.remaining_amount)
      = [some 10] ∧
    (Database.save_data (Database.get_all_accounts exampleDb).2).disk_accounts.map
      (fun a => a.remaining_amount) = [some 10] :=
  ⟨rfl, rfl, rfl⟩

/-- C10: every index-addressed store mutator, applied at any index outside
`[0, length)` (negative included), returns the state unchanged: the in-memory
collections are untouched and the on-disk documents are not rewritten. -/
theorem db_mutators_out_of_range (db : Database) (idx amount : Int)
    (a : AccountRecord) (locked : Bool)
    (h : ¬(0 ≤ idx ∧ idx < (db.accounts.length : Int))) :
    db.update_account idx a = db ∧ db.delete_account idx = db ∧
    db.add_paid_amount idx amount = db ∧ db.toggle_lock idx locked = db := by
  refine ⟨?_, ?_, ?_, ?_⟩ <;>
    simp [Database.update_account, Database.delete_account, Database.add_paid_amount,
      Database.toggle_lock, h]

/-- Witness for C10 at index 5 (and the length-1 example store). -/
theorem db_mutators_out_of_range_witness :
    ¬((0:Int) ≤ 5 ∧ (5:Int) < (exampleDb.accounts.length : Int)) ∧
    exampleDb.update_account 5 exampleAcct = exampleDb ∧
    exampleDb.delete_account 5 = exampleDb ∧
    exampleDb.add_paid_amount 5 7 = exampleDb ∧
    exampleDb.toggle_lock 5 true = exampleDb :=
  ⟨by decide, db_mutators_out_of_range exampleDb 5 7 exampleAcct true (by decide)⟩

/-- C3: whenever the add_payment handler admits a payment (returns the
redirect), the mutated account satisfies `sum(paid_amounts) <= total_amount`
afterwards, for any integer total and any admitted amounts (zero and negative
included). -/
theorem add_payment_preserves_invariant (now idx amount : Int) (sid : Option String)
    (db : Database) (h : (add_payment now idx amount sid db).1 = HResp.redirect) :
    ((add_payment now idx amount sid db).2.accounts.getD idx.toNat default).paid_amounts.sum
      ≤ ((add_payment now idx amount sid db).2.accounts.getD idx.toNat default).total_amount := by
  unfold add_payment at h ⊢
  rcases hgs : get_session now sid db with ⟨s?, db1⟩
  rw [hgs] at h
  cases s? with
  | none => simp at h
  | some s =>
    simp only [Database.get_all_accounts] at h ⊢
    split_ifs at h ⊢ with h1 h2 h3
    push_neg at h1
    obtain ⟨hlo, hhi⟩ := h1
    have hlt : idx.toNat < (List.map refreshRemaining db1.accounts).length := by omega
    simp only [Database.add_paid_amount, Database.save_data]
    rw [if_pos ⟨hlo, by simpa using hhi⟩]
    dsimp only
    rw [getD_set_self _ _ _ hlt]
    dsimp only
    simp only [List.sum_append, List.sum_cons, List.sum_nil]
    omega

/-- Witness for C3: an admitted payment of 5 against a total of 10. -/
theorem add_payment_preserves_invariant_witness :
    (add_payment 0 0 5 (some "tk") exampleDb).1 = HResp.redirect ∧
    ((add_payment 0 0 5 (some "tk") exampleDb).2.accounts.getD
        (0:Int).toNat default).paid_amounts.sum
      ≤ ((add_payment 0 0 5 (some "tk") exampleDb).2.accounts.getD
          (0:Int).toNat default).total_amount :=
  ⟨by decide, add_payment_preserves_invariant 0 0 5 (some "tk") exampleDb (by decide)⟩

/-- C4 as stated is false: with a resolved session, index 0 in range and the
account unlocked, a payment of 20 against remaining 10 is rejected with
PaymentExceedsRemaining, yet the accounts collection does change — the
listing taken inside the handler plants the `remaining_amount` key into the
stored record. So "rejected and collection unchanged" is not equivalent to
"amount > remaining". -/
theorem add_payment_claim_counterexample :
    ¬(((add_payment 0 0 20 (some "tk") exampleDb).1
          = HResp.httpError 400 "支付金额超过剩余金额" ∧
        (add_payment 0 0 20 (some "tk") exampleDb).2.accounts = exampleDb.accounts) ↔
      exampleAcct.total_amount - exampleAcct.paid_amounts.sum < 20) := by decide

/-- C6 as stated is false: the manager's toggle succeeds and flips `locked`,
but another field of the account also changes — the in-handler listing writes
the `remaining_amount` key into the stored record. -/
theorem toggle_lock_claim_counterexample :
    (toggle_lock 0 0 (some "tk") exampleDb).1 = HResp.redirect ∧
    ((toggle_lock 0 0 (some "tk") exampleDb).2.accounts.getD 0 default).locked = true ∧
    ((toggle_lock 0 0 (some "tk") exampleDb).2.accounts.getD 0 default).remaining_amount
      ≠ (exampleDb.accounts.getD 0 default).remaining_amount := by decide

/-- C7 as stated is false: a non-manager non-viewer caller is refused with
Forbidden, yet the accounts collection does change — the in-handler listing
writes the `remaining_amount` key into the stored record. -/
theorem delete_claim_counterexample :
    (delete_account 0 0 (some "tkb") exampleDb).1 = HResp.httpError 403 "只能删除自己的账户" ∧
    (delete_account 0 0 (some "tkb") exampleDb).2.accounts ≠ exampleDb.accounts := by decide

/-- A trace of public operations that logs a regular user in under the
sentinel username, creates an account managed by it, and then opens a viewer
session. -/
def sentinelTrace : List Op :=
  [ Op.opLogin 0 "tok1" "浏览者" false
  , Op.opCreate 0 "ct" "1001" 1000 (some "tok1")
  , Op.opLogin 0 "tok2" "ignored" true ]

/-- C5 as stated is false: the state reached by `sentinelTrace` holds an
account whose manager is the viewer sentinel "浏览者", and the viewer session
"tok2" then toggles its lock successfully instead of being refused. -/
theorem viewer_sentinel_counterexample :
    ((runOps initDb sentinelTrace).accounts.getD 0 default).manager = "浏览者" ∧
    lookupKey (runOps initDb sentinelTrace).sessions "tok2"
      = some { username := "浏览者", is_viewer := true, login_time := 0 } ∧
    (toggle_lock 0 0 (some "tok2") (runOps initDb sentinelTrace)).1 = HResp.redirect := by
  decide

/-- C4 amended: with a resolved non-expired session, an in-range index and
the account not locked-by-another, add_payment is rejected with
PaymentExceedsRemaining — leaving every account's persistent fields (all but
the derived `remaining_amount` cache, which the in-handler listing refreshes
in place) unchanged and the accounts document unwritten — exactly when
`amount > remaining` at call time; otherwise it appends `amount` to the
account's `paid_amounts` and persists the state. -/
theorem add_payment_spec (now idx amount : Int) (sid : String) (s : UserSession)
    (db : Database)
    (hsid : sid ≠ "") (hs : lookupKey db.sessions sid = some s)
    (hfresh : now - s.login_time < 1440)
    (hlo : 0 ≤ idx) (hhi : idx < (db.accounts.length : Int))
    (hlock : ¬((db.accounts.getD idx.toNat default).locked = true ∧
        (db.accounts.getD idx.toNat default).manager ≠ s.username)) :
    if (db.accounts.getD idx.toNat default).total_amount
        - (db.accounts.getD idx.toNat default).paid_amounts.sum < amount then
      (add_payment now idx amount (some sid) db).1
        = HResp.httpError 400 "支付金额超过剩余金额" ∧
      (add_payment now idx amount (some sid) db).2.accounts.map stripCache
        = db.accounts.map stripCache ∧
      (add_payment now idx amount (some sid) db).2.disk_accounts = db.disk_accounts
    else
      (add_payment now idx amount (some sid) db).1 = HResp.redirect ∧
      (add_payment now idx amount (some sid) db).2.accounts.map stripCache
        = (db.accounts.map stripCache).set idx.toNat
            (stripCache { db.accounts.getD idx.toNat default with
                paid_amounts := (db.accounts.getD idx.toNat default).paid_amounts
                  ++ [amount] }) ∧
      (add_payment now idx amount (some sid) db).2.disk_accounts
        = (add_payment now idx amount (some sid) db).2.accounts := by
  have hgs := get_session_fresh now sid s db hsid hs hfresh
  have hltN : idx.toNat < db.accounts.length := by omega
  unfold add_payment
  rw [hgs]
  simp only [Database.get_all_accounts]
  have hnotrange : ¬(idx < 0 ∨ (((db.accounts.map refreshRemaining).length) : Int) ≤ idx) := by
    simp only [List.length_map]; omega
  have hlockR : ¬((refreshRemaining (db.accounts.getD idx.toNat default)).locked = true ∧
      (refreshRemaining (db.accounts.getD idx.toNat default)).manager ≠ s.username) := hlock
  rw [if_neg hnotrange, getD_map_refresh _ _ hltN, if_neg hlockR]
  by_cases hexc : (db.accounts.getD idx.toNat default).total_amount
      - (db.accounts.getD idx.toNat default).paid_amounts.sum < amount
  · have hexcR : (refreshRemaining (db.accounts.getD idx.toNat default)).total_amount
        - (refreshRemaining (db.accounts.getD idx.toNat default)).paid_amounts.sum
          < amount := hexc
    rw [if_pos hexc, if_pos hexcR]
    exact ⟨rfl, map_stripCache_refreshRemaining db.accounts, rfl⟩
  · have hexcR : ¬((refreshRemaining (db.accounts.getD idx.toNat default)).total_amount
        - (refreshRemaining (db.accounts.getD idx.toNat default)).paid_amounts.sum
          < amount) := hexc
    rw [if_neg hexc, if_neg hexcR]
    refine ⟨rfl, ?_, ?_⟩
    · simp only [Database.add_paid_amount, Database.save_data, List.length_map]
      rw [if_pos ⟨hlo, by omega⟩, getD_map_refresh _ _ hltN]
      dsimp only
      rw [List.map_set, map_stripCache_refreshRemaining]
      rfl
    · simp only [Database.add_paid_amount, Database.save_data, List.length_map]
      rw [if_pos ⟨hlo, by omega⟩]

/-- Witness for the amended C4: a payment of 20 against remaining 10 is
rejected without touching the persistent fields or the documents. -/
theorem add_payment_spec_witness :
    if (exampleDb.accounts.getD (0:Int).toNat default).total_amount
        - (exampleDb.accounts.getD (0:Int).toNat default).paid_amounts.sum < 20 then
      (add_payment 0 0 20 (some "tk") exampleDb).1
        = HResp.httpError 400 "支付金额超过剩余金额" ∧
      (add_payment 0 0 20 (some "tk") exampleDb).2.accounts.map stripCache
        = exampleDb.accounts.map stripCache ∧
      (add_payment 0 0 20 (some "tk") exampleDb).2.disk_accounts = exampleDb.disk_accounts
    else
      (add_payment 0 0 20 (some "tk") exampleDb).1 = HResp.redirect ∧
      (add_payment 0 0 20 (some "tk") exampleDb).2.accounts.map stripCache
        = (exampleDb.accounts.map stripCache).set (0:Int).toNat
            (stripCache { exampleDb.accounts.getD (0:Int).toNat default with
                paid_amounts := (exampleDb.accounts.getD (0:Int).toNat default).paid_amounts
                  ++ [20] }) ∧
      (add_payment 0 0 20 (some "tk") exampleDb).2.disk_accounts
        = (add_payment 0 0 20 (some "tk") exampleDb).2.accounts :=
  add_payment_spec 0 0 20 "tk" exampleSession exampleDb (by decide) (by decide) (by decide)
    (by decide) (by decide) (by decide)

/-- C5 amended: login does not reserve the sentinel username, so an account
managed by "浏览者" is reachable and a viewer can toggle its lock (see the
counterexample); but for every account whose manager is not the sentinel, a
viewer session (whose username login fixes to the sentinel) is always refused
with Forbidden, and the persistent fields stay unchanged. -/
theorem toggle_lock_viewer_nonsentinel_forbidden (now idx : Int) (sid : String)
    (s : UserSession) (db : Database)
    (hsid : sid ≠ "") (hs : lookupKey db.sessions sid = some s)
    (hfresh : now - s.login_time < 1440)
    (_hviewer : s.is_viewer = true) (huser : s.username = "浏览者")
    (hlo : 0 ≤ idx) (hhi : idx < (db.accounts.length : Int))
    (hmgr : (db.accounts.getD idx.toNat default).manager ≠ "浏览者") :
    (toggle_lock now idx (some sid) db).1 = HResp.httpError 403 "只能操作自己的账户" ∧
    (toggle_lock now idx (some sid) db).2.accounts.map stripCache
      = db.accounts.map stripCache := by
  have hgs := get_session_fresh now sid s db hsid hs hfresh
  have hltN : idx.toNat < db.accounts.length := by omega
  unfold toggle_lock
  rw [hgs]
  simp only [Database.get_all_accounts]
  have hnotrange : ¬(idx < 0 ∨ (((db.accounts.map refreshRemaining).length) : Int) ≤ idx) := by
    simp only [List.length_map]; omega
  have hcond : (refreshRemaining (db.accounts.getD idx.toNat default)).manager
      ≠ s.username := by
    rw [huser]; exact hmgr
  rw [if_neg hnotrange, getD_map_refresh _ _ hltN, if_pos hcond]
  exact ⟨rfl, map_stripCache_refreshRemaining db.accounts⟩

/-- Witness for the amended C5: the viewer session "tkv" is refused on the
account managed by "alice". -/
theorem toggle_lock_viewer_nonsentinel_forbidden_witness :
    (toggle_lock 0 0 (some "tkv") exampleDb).1 = HResp.httpError 403 "只能操作自己的账户" ∧
    (toggle_lock 0 0 (some "tkv") exampleDb).2.accounts.map stripCache
      = exampleDb.accounts.map stripCache :=
  toggle_lock_viewer_nonsentinel_forbidden 0 0 "tkv" exampleViewer exampleDb (by decide)
    (by decide) (by decide) (by decide) (by decide) (by decide) (by decide) (by decide)

/-- C6 amended: with a resolved session and in-range index, toggle_lock
succeeds exactly when the caller's username equals the account's manager, in
which case the account's `locked` flag is flipped and the state persisted,
all persistent fields of all accounts otherwise unchanged (the in-handler
listing refreshes the derived `remaining_amount` cache in place, which is the
one deviation from the claim as stated); otherwise it fails with Forbidden
and the persistent fields are unchanged. -/
theorem toggle_lock_spec (now idx : Int) (sid : String) (s : UserSession) (db : Database)
    (hsid : sid ≠ "") (hs : lookupKey db.sessions sid = some s)
    (hfresh : now - s.login_time < 1440)
    (hlo : 0 ≤ idx) (hhi : idx < (db.accounts.length : Int)) :
    if (db.accounts.getD idx.toNat default).manager = s.username then
      (toggle_lock now idx (some sid) db).1 = HResp.redirect ∧
      (toggle_lock now idx (some sid) db).2.accounts.map stripCache
        = (db.accounts.map stripCache).set idx.toNat
            (stripCache { db.accounts.getD idx.toNat default with
                locked := !(db.accounts.getD idx.toNat default).locked }) ∧
      (toggle_lock now idx (some sid) db).2.disk_accounts
        = (toggle_lock now idx (some sid) db).2.accounts
    else
      (toggle_lock now idx (some sid) db).1 = HResp.httpError 403 "只能操作自己的账户" ∧
      (toggle_lock now idx (some sid) db).2.accounts.map stripCache
        = db.accounts.map stripCache := by
  have hgs := get_session_fresh now sid s db hsid hs hfresh
  have hltN : idx.toNat < db.accounts.length := by omega
  unfold toggle_lock
  rw [hgs]
  simp only [Database.get_all_accounts]
  have hnotrange : ¬(idx < 0 ∨ (((db.accounts.map refreshRemaining).length) : Int) ≤ idx) := by
    simp only [List.length_map]; omega
  rw [if_neg hnotrange, getD_map_refresh _ _ hltN]
  by_cases hmgr : (db.accounts.getD idx.toNat default).manager = s.username
  · rw [if_pos hmgr, if_neg (by simpa [refreshRemaining] using not_not_intro hmgr)]
    refine ⟨rfl, ?_, ?_⟩
    · simp only [Database.toggle_lock, Database.save_data, List.length_map]
      rw [if_pos ⟨hlo, by omega⟩, getD_map_refresh _ _ hltN]
      dsimp only
      rw [List.map_set, map_stripCache_refreshRemaining]
      rfl
    · simp only [Database.toggle_lock, Database.save_data, List.length_map]
      rw [if_pos ⟨hlo, by omega⟩]
  · rw [if_neg hmgr, if_pos (by simpa [refreshRemaining] using hmgr)]
    exact ⟨rfl, map_stripCache_refreshRemaining db.accounts⟩

/-- Witness for the amended C6: the manager "alice" flips the lock of an
unlocked account. -/
theorem toggle_lock_spec_witness :
    if (exampleDb.accounts.getD (0:Int).toNat default).manager = exampleSession.username then
      (toggle_lock 0 0 (some "tk") exampleDb).1 = HResp.redirect ∧
      (toggle_lock 0 0 (some "tk") exampleDb).2.accounts.map stripCache
        = (exampleDb.accounts.map stripCache).set (0:Int).toNat
            (stripCache { exampleDb.accounts.getD (0:Int).toNat default with
                locked := !(exampleDb.accounts.getD (0:Int).toNat default).locked }) ∧
      (toggle_lock 0 0 (some "tk") exampleDb).2.disk_accounts
        = (toggle_lock 0 0 (some "tk") exampleDb).2.accounts
    else
      (toggle_lock 0 0 (some "tk") exampleDb).1 = HResp.httpError 403 "只能操作自己的账户" ∧
      (toggle_lock 0 0 (some "tk") exampleDb).2.accounts.map stripCache
        = exampleDb.accounts.map stripCache :=
  toggle_lock_spec 0 0 "tk" exampleSession exampleDb (by decide) (by decide) (by decide)
    (by decide) (by decide)

/-- C7 amended: with a resolved session and in-range index, delete_account
removes the record at the index and persists exactly when the caller is the
account's manager or a viewer; otherwise it fails with Forbidden. In both
cases the other accounts' persistent fields are unchanged, but the in-handler
listing refreshes the derived `remaining_amount` cache in place (the one
deviation from the claim as stated). -/
theorem delete_account_spec (now idx : Int) (sid : String) (s : UserSession) (db : Database)
    (hsid : sid ≠ "") (hs : lookupKey db.sessions sid = some s)
    (hfresh : now - s.login_time < 1440)
    (hlo : 0 ≤ idx) (hhi : idx < (db.accounts.length : Int)) :
    if (db.accounts.getD idx.toNat default).manager = s.username ∨ s.is_viewer = true then
      (delete_account now idx (some sid) db).1 = HResp.redirect ∧
      (delete_account now idx (some sid) db).2.accounts.map stripCache
        = (db.accounts.map stripCache).eraseIdx idx.toNat ∧
      (delete_account now idx (some sid) db).2.disk_accounts
        = (delete_account now idx (some sid) db).2.accounts
    else
      (delete_account now idx (some sid) db).1 = HResp.httpError 403 "只能删除自己的账户" ∧
      (delete_account now idx (some sid) db).2.accounts.map stripCache
        = db.accounts.map stripCache := by
  have hgs := get_session_fresh now sid s db hsid hs hfresh
  have hltN : idx.toNat < db.accounts.length := by omega
  unfold delete_account
  rw [hgs]
  simp only [Database.get_all_accounts]
  have hnotrange : ¬(idx < 0 ∨ (((db.accounts.map refreshRemaining).length) : Int) ≤ idx) := by
    simp only [List.length_map]; omega
  rw [if_neg hnotrange, getD_map_refresh _ _ hltN]
  by_cases hok : (db.accounts.getD idx.toNat default).manager = s.username ∨ s.is_viewer = true
  · have hcond : ¬((refreshRemaining (db.accounts.getD idx.toNat default)).manager
        ≠ s.username ∧ s.is_viewer = false) := by
      rintro ⟨hm, hv⟩
      rcases hok with h | h
      · exact hm h
      · rw [h] at hv; cases hv
    rw [if_pos hok, if_neg hcond]
    refine ⟨rfl, ?_, ?_⟩
    · simp only [Database.delete_account, Database.save_data, List.length_map]
      rw [if_pos ⟨hlo, by omega⟩]
      dsimp only
      rw [← eraseIdx_map_stripCache, map_stripCache_refreshRemaining, eraseIdx_map_stripCache]
    · simp only [Database.delete_account, Database.save_data, List.length_map]
      rw [if_pos ⟨hlo, by omega⟩]
  · rw [if_neg hok]
    push_neg at hok
    have hcond : (refreshRemaining (db.accounts.getD idx.toNat default)).manager
        ≠ s.username ∧ s.is_viewer = false := ⟨hok.1, by simpa using hok.2⟩
    rw [if_pos hcond]
    exact ⟨rfl, map_stripCache_refreshRemaining db.accounts⟩

/-- Witness for the amended C7: the manager "alice" deletes the record. -/
theorem delete_account_spec_witness :
    if (exampleDb.accounts.getD (0:Int).toNat default).manager = exampleSession.username
        ∨ exampleSession.is_viewer = true then
      (delete_account 0 0 (some "tk") exampleDb).1 = HResp.redirect ∧
      (delete_account 0 0 (some "tk") exampleDb).2.accounts.map stripCache
        = (exampleDb.accounts.map stripCache).eraseIdx (0:Int).toNat ∧
      (delete_account 0 0 (some "tk") exampleDb).2.disk_accounts
        = (delete_account 0 0 (some "tk") exampleDb).2.accounts
    else
      (delete_account 0 0 (some "tk") exampleDb).1 = HResp.httpError 403 "只能删除自己的账户" ∧
      (delete_account 0 0 (some "tk") exampleDb).2.accounts.map stripCache
        = exampleDb.accounts.map stripCache :=
  delete_account_spec 0 0 "tk" exampleSession exampleDb (by decide) (by decide) (by decide)
    (by decide) (by decide)

/-- C8: resolving a stored session at time `now` returns it iff
`now - login_time < 24h` (1440 minutes); if expired, the session is deleted,
the state persisted, and None returned. Tokens issued by login are nonempty
uuid strings, hence the nonempty-token hypothesis. -/
theorem get_session_spec (now : Int) (sid : String) (s : UserSession) (db : Database)
    (hsid : sid ≠ "") (hs : lookupKey db.sessions sid = some s) :
    (now - s.login_time < 1440 → get_session now (some sid) db = (some s, db)) ∧
    (1440 ≤ now - s.login_time →
      (get_session now (some sid) db).1 = none ∧
      (get_session now (some sid) db).2.sessions = eraseKey db.sessions sid ∧
      lookupKey (get_session now (some sid) db).2.sessions sid = none ∧
      (get_session now (some sid) db).2.disk_sessions
        = (get_session now (some sid) db).2.sessions) := by
  constructor
  · intro hfresh
    exact get_session_fresh now sid s db hsid hs hfresh
  · intro hexp
    have hnot : ¬(now - s.login_time < 1440) := by omega
    simp only [get_session, if_neg hsid, hs, if_neg hnot]
    simp [Database.save_data, lookupKey_eraseKey_self]

/-- Witness for C8: the session logged in at time 0 resolves at minute 1439
(23h59m) and no longer resolves at minute 1441 (24h01m). -/
theorem get_session_spec_witness :
    get_session 1439 (some "tk") exampleDb = (some exampleSession, exampleDb) ∧
    (get_session 1441 (some "tk") exampleDb).1 = none :=
  ⟨(get_session_spec 1439 "tk" exampleSession exampleDb (by decide) (by decide)).1
      (by decide),
   ((get_session_spec 1441 "tk" exampleSession exampleDb (by decide) (by decide)).2
      (by decide)).1⟩

/-- C9: with a resolved non-expired session, add_account fails with Forbidden
for viewers and with InvalidCode for codes outside ACCOUNT_MAPPING, leaving
the state (accounts collection included) unchanged in both cases; otherwise
it appends exactly one record with manager = the session's username and
account_name = the mapping's value, and persists. -/
theorem add_account_spec (now total_amount : Int) (ct code : String) (sid : String)
    (s : UserSession) (db : Database)
    (hsid : sid ≠ "") (hs : lookupKey db.sessions sid = some s)
    (hfresh : now - s.login_time < 1440) :
    (s.is_viewer = true →
      add_account now ct code total_amount (some sid) db
        = (HResp.httpError 403 "浏览模式无法添加账户", db)) ∧
    (s.is_viewer = false → lookupKey ACCOUNT_MAPPING code = none →
      add_account now ct code total_amount (some sid) db
        = (HResp.httpError 400 "无效的账户编码", db)) ∧
    (∀ name, s.is_viewer = false → lookupKey ACCOUNT_MAPPING code = some name →
      (add_account now ct code total_amount (some sid) db).1 = HResp.redirect ∧
      (add_account now ct code total_amount (some sid) db).2.accounts
        = db.accounts ++
          [{ account_code := code, account_name := name, total_amount := total_amount
           , manager := s.username, created_time := ct, paid_amounts := []
           , locked := false, remaining_amount := none }] ∧
      (add_account now ct code total_amount (some sid) db).2.disk_accounts
        = (add_account now ct code total_amount (some sid) db).2.accounts) := by
  have hgs := get_session_fresh now sid s db hsid hs hfresh
  refine ⟨?_, ?_, ?_⟩
  · intro hv
    unfold add_account
    rw [hgs]
    simp only [hv, if_pos]
  · intro hv hcode
    unfold add_account
    rw [hgs]
    simp only [hv, Bool.false_eq_true, if_false, hcode]
  · intro name hv hcode
    unfold add_account
    rw [hgs]
    simp only [hv, Bool.false_eq_true, if_false, hcode, Database.add_account,
      Database.save_data]
    simp

/-- Witness for C9: the success path for code "1001" by non-viewer "alice". -/
theorem add_account_spec_witness :
    (add_account 0 "ct" "1001" 500 (some "tk") exampleDb).1 = HResp.redirect ∧
    (add_account 0 "ct" "1001" 500 (some "tk") exampleDb).2.accounts
      = exampleDb.accounts ++
        [{ account_code := "1001", account_name := "平安保险养老金", total_amount := 500
         , manager := exampleSession.username, created_time := "ct", paid_amounts := []
         , locked := false, remaining_amount := none }] ∧
    (add_account 0 "ct" "1001" 500 (some "tk") exampleDb).2.disk_accounts
      = (add_account 0 "ct" "1001" 500 (some "tk") exampleDb).2.accounts :=
  (add_account_spec 0 500 "ct" "1001" "tk" exampleSession exampleDb (by decide) (by decide)
    (by decide)).2.2 "平安保险养老金" (by decide) (by decide)
